import Mathlib

/-!
Shallow embedding of `src/custom-select.js` (willenium/custom-dropdown).

The plugin wraps a native `<select>` in a custom widget.  We model:
* the native `<select>`: its `<option>` children (value attribute, text,
  selected attribute) and its current value (`selectElement.val()`);
* the custom list: one `<li>` per option, carrying a `data-value`, a text
  label, and possibly the `selected` class;
* the wrapper classes `focus` / `expanded` / `disabled`, the trigger text,
  and the closure variables `expanded` and `disabled`.

Event handlers return `Widget × Bool` where the `Bool` records whether the
default platform action was suppressed (jQuery suppresses it when the
handler calls `e.preventDefault()` or returns `false`).
-/

namespace CustomSelect

/-- An `<option>` child of the native select: its `value` attribute, its
text content, and whether it carries the `selected` attribute. -/
structure NativeOption where
  value : String
  label : String
  selected : Bool
  deriving Repr, DecidableEq

/-- The native `<select>` element: its options and its current value
(what `selectElement.val()` would return). -/
structure NativeSelect where
  opts : List NativeOption
  val : String
  deriving Repr, DecidableEq

/-- An `<li>` of the custom list: the `data-value` of its button, the
button text, and whether the `<li>` carries the `selected` class. -/
structure ListItem where
  value : String
  label : String
  selectedCls : Bool
  deriving Repr, DecidableEq

/-- The whole widget state: native select, custom list items, trigger
text, wrapper classes, and the closure variables. -/
structure Widget where
  native : NativeSelect
  items : List ListItem
  triggerText : String
  focusCls : Bool
  expandedCls : Bool
  disabledCls : Bool
  expanded : Bool
  disabled : Bool
  deriving Repr, DecidableEq

/-- `changeSelectItem` (lines 187-193): clear the `selected` attribute on
every option, set it on each option whose `value` attribute equals the
committed value, then `selectElement.val(value)`.  jQuery `.val(v)` on a
select leaves the value unset (empty) when no option matches `v`. -/
def changeSelectItem (s : NativeSelect) (value : String) : NativeSelect :=
  let opts := s.opts.map (fun o => { o with selected := o.value == value })
  { opts := opts
  , val := if opts.any (fun o => o.value == value) then value else "" }

/-- `updateTriggerText` (lines 275-278). -/
def updateTriggerText (w : Widget) (value : String) : Widget :=
  { w with triggerText := value }

/-- `list.find(optionEl).parent().removeClass(options.selectedClass)`:
remove the `selected` class from every list item. -/
def deselectAll (items : List ListItem) : List ListItem :=
  items.map (fun it => { it with selectedCls := false })

/-- `changeSelectElement` (lines 172-181), the clicked/target button given
by its index in the list: deselect every item, mark the target's parent
selected, set the trigger text to the target's text, then commit the
target's `data-value` to the native select via `changeSelectItem`. -/
def changeSelectElement (w : Widget) (i : Nat) : Widget :=
  match w.items.get? i with
  | none => w
  | some it =>
    let w1 := { w with items := (deselectAll w.items).set i { it with selectedCls := true } }
    let w2 := updateTriggerText w1 it.label
    { w2 with native := changeSelectItem w2.native it.value }

/-- The micro-step trace of `changeSelectElement`: the widget state after
each successive statement of lines 175-180 (initial state first). -/
def changeSelectElementTrace (w : Widget) (i : Nat) : List Widget :=
  match w.items.get? i with
  | none => [w]
  | some it =>
    let w1 := { w with items := deselectAll w.items }
    let w2 := { w1 with items := w1.items.set i { it with selectedCls := true } }
    let w3 := updateTriggerText w2 it.label
    let w4 := { w3 with native := changeSelectItem w3.native it.value }
    [w, w1, w2, w3, w4]

/-- `list.find(selectedEl).index()` (line 123): index of the first list
item carrying the `selected` class, `-1` when there is none. -/
def selectedLiIndex (items : List ListItem) : Int :=
  match items.findIdx? (fun it => it.selectedCls) with
  | some i => (i : Int)
  | none => -1

/-- jQuery `.eq(i)` on a collection of length `len`: nonnegative `i`
selects position `i`, negative `i` counts from the end, out of range is
empty. -/
def jqEq (len : Nat) (i : Int) : Option Nat :=
  if 0 ≤ i then
    if i < (len : Int) then some i.toNat else none
  else
    let j : Int := (len : Int) + i
    if 0 ≤ j then some j.toNat else none

/-- Lines 139-142, run when `nextSelection` is nonempty: add the
`selected` class to item `ns`, set the trigger text to its text, remove
the `selected` class from the item at `.eq(selection)`, then commit the
value of the (first) currently `selected` item. -/
def keyboardApply (w : Widget) (selection : Int) (ns : Nat) : Widget :=
  let items1 := match w.items.get? ns with
    | some it => w.items.set ns { it with selectedCls := true }
    | none => w.items
  let newText := match w.items.get? ns with
    | some it => it.label
    | none => w.triggerText
  let w1 := { w with items := items1, triggerText := newText }
  let items2 := match jqEq items1.length selection with
    | some k => match items1.get? k with
      | some it => items1.set k { it with selectedCls := false }
      | none => items1
    | none => items1
  let w2 := { w1 with items := items2 }
  match items2.find? (fun it => it.selectedCls) with
  | some it => { w2 with native := changeSelectItem w2.native it.value }
  | none =>
    -- empty selection: `data('value')` is `undefined` and the selector
    -- string becomes the literal `[value=undefined]`
    { w2 with native := changeSelectItem w2.native "undefined" }

/-- `handleKeyboardInput` (lines 121-144): read the selected index, pick
the previous item for Up/Left (38/37) or the next for Down/Right (40/39),
and apply the selection when such a sibling exists. -/
def handleKeyboardInput (w : Widget) (keyCode : Nat) : Widget :=
  let selection := selectedLiIndex w.items
  let nextSelection : Option Nat :=
    if keyCode == 38 || keyCode == 37 then
      match jqEq w.items.length selection with
      | some k => if k == 0 then none else some (k - 1)
      | none => none
    else if keyCode == 40 || keyCode == 39 then
      match jqEq w.items.length selection with
      | some k => if k + 1 < w.items.length then some (k + 1) else none
      | none => none
    else none
  match nextSelection with
  | none => w
  | some ns => keyboardApply w selection ns

/-- The event types routed through `handleKeyboardSelect`. -/
inductive KeyEventType
  | keyup (keyCode : Nat)
  | blurEv
  | focusEv
  | disableEv
  | otherEv
  deriving Repr, DecidableEq

/-- `handleKeyboardSelect` (lines 90-115).  When `disabled` it returns
`false`, which makes jQuery suppress the default action; otherwise it
dispatches on the event type and calls `e.preventDefault()`.  The `Bool`
component records whether the default action was suppressed. -/
def handleKeyboardSelect (w : Widget) (e : KeyEventType) : Widget × Bool :=
  if w.disabled then
    (w, true)
  else
    let w1 := match e with
      | .keyup c => handleKeyboardInput w c
      | .blurEv => { w with focusCls := false }
      | .focusEv => { w with focusCls := true }
      | .disableEv => { w with disabled := true }
      | .otherEv => w
    (w1, true)

/-- `openCustomSelect` (lines 218-224). -/
def openCustomSelect (w : Widget) : Widget :=
  { w with expandedCls := true, expanded := true }

/-- `closeCustomSelect` (lines 229-235). -/
def closeCustomSelect (w : Widget) : Widget :=
  { w with expandedCls := false, expanded := false }

/-- `toggleCustomSelect` (lines 198-213): no-op when disabled, otherwise
close when expanded and open when not. -/
def toggleCustomSelect (w : Widget) : Widget :=
  if w.disabled then w
  else if w.expanded then closeCustomSelect w
  else openCustomSelect w

/-- `toggleCustomSelect` as the trigger's click handler: when disabled it
returns `false` (jQuery suppresses the default), otherwise it toggles and
returns `undefined`, so the default action is NOT suppressed. -/
def triggerClick (w : Widget) : Widget × Bool :=
  if w.disabled then (w, true)
  else (toggleCustomSelect w, false)

/-- The click target inside the custom list: either one of the option
buttons (by index) or some other node. -/
inductive ClickTarget
  | buttonAt (i : Nat)
  | nonButton
  deriving Repr, DecidableEq

/-- `handleCustomListClick` (lines 150-166): when disabled return `false`
(jQuery suppresses the default); when the target is a button, toggle the
widget and apply the selection; finally `e.preventDefault()`. -/
def handleCustomListClick (w : Widget) (t : ClickTarget) : Widget × Bool :=
  if w.disabled then (w, true)
  else
    match t with
    | .buttonAt i =>
      let w1 := toggleCustomSelect w
      let w2 := changeSelectElement w1 i
      (w2, true)
    | .nonButton => (w, true)

/-- Construction (`CustomSelect` lines 46-58 plus `createCustomSelect`
lines 240-269): the wrapper starts without the `focus`/`expanded` classes
and gets the `disabled` class iff the select has the `disabled` attribute;
each `<option>` yields one list item copying its value and text, and the
item gets the `selected` class iff the option has the `selected`
attribute; the trigger text is set (overwritten) for each option that has
the `selected` attribute. -/
def createCustomSelect (opts : List NativeOption) (disabledAttr : Bool)
    (initialVal : String) : Widget :=
  { native := { opts := opts, val := initialVal }
  , items := opts.map (fun o => { value := o.value, label := o.label, selectedCls := o.selected })
  , triggerText := opts.foldl (fun t o => if o.selected then o.label else t) ""
  , focusCls := false
  , expandedCls := false
  , disabledCls := disabledAttr
  , expanded := false
  , disabled := disabledAttr }

/-- The input events routed by `bindEventHandler` (lines 75-84). -/
inductive Event
  | triggerEv
  | listClick (t : ClickTarget)
  | keyboard (e : KeyEventType)
  deriving Repr, DecidableEq

/-- One routed event (dropping the default-suppression flag). -/
def step (w : Widget) : Event → Widget
  | .triggerEv => (triggerClick w).1
  | .listClick t => (handleCustomListClick w t).1
  | .keyboard e => (handleKeyboardSelect w e).1

/-- A sequence of routed events. -/
def run (w : Widget) (evs : List Event) : Widget :=
  evs.foldl step w

/-- Index of the first list item rendered as selected. -/
def renderedSelection (w : Widget) : Option Nat :=
  w.items.findIdx? (fun it => it.selectedCls)

/-- A three-option widget (values a/b/c, labels A/B/C) with index 0
selected, closed, enabled. -/
def sampleW : Widget :=
  createCustomSelect
    [⟨"a", "A", true⟩, ⟨"b", "B", false⟩, ⟨"c", "C", false⟩] false "a"

/-- `sampleW` after opening (expanded, focused). -/
def sampleWExp : Widget :=
  { sampleW with expanded := true, expandedCls := true, focusCls := true }

/-- `sampleW` with the disable signal already received. -/
def sampleDisabled : Widget :=
  { sampleW with disabled := true, disabledCls := true }

/-! ### Frame lemmas: which fields each operation leaves untouched -/

theorem changeSelectElement_frame (w : Widget) (i : Nat) :
    (changeSelectElement w i).expanded = w.expanded ∧
    (changeSelectElement w i).expandedCls = w.expandedCls ∧
    (changeSelectElement w i).focusCls = w.focusCls ∧
    (changeSelectElement w i).disabled = w.disabled := by
  unfold changeSelectElement
  split <;> exact ⟨rfl, rfl, rfl, rfl⟩

theorem keyboardApply_frame (w : Widget) (s : Int) (ns : Nat) :
    (keyboardApply w s ns).expanded = w.expanded ∧
    (keyboardApply w s ns).expandedCls = w.expandedCls ∧
    (keyboardApply w s ns).focusCls = w.focusCls ∧
    (keyboardApply w s ns).disabled = w.disabled := by
  simp only [keyboardApply]
  repeat' split
  all_goals exact ⟨rfl, rfl, rfl, rfl⟩

theorem handleKeyboardInput_frame (w : Widget) (c : Nat) :
    (handleKeyboardInput w c).expanded = w.expanded ∧
    (handleKeyboardInput w c).expandedCls = w.expandedCls ∧
    (handleKeyboardInput w c).focusCls = w.focusCls ∧
    (handleKeyboardInput w c).disabled = w.disabled := by
  simp only [handleKeyboardInput]
  repeat' split
  all_goals first
    | exact ⟨rfl, rfl, rfl, rfl⟩
    | exact keyboardApply_frame w _ _

/-- Unfolding `changeSelectElement` at an in-range index. -/
theorem changeSelectElement_eq (w : Widget) (i : Nat) (h : i < w.items.length) :
    changeSelectElement w i =
      { w with
        items := (deselectAll w.items).set i { w.items.get ⟨i, h⟩ with selectedCls := true }
      , triggerText := (w.items.get ⟨i, h⟩).label
      , native := changeSelectItem w.native (w.items.get ⟨i, h⟩).value } := by
  rw [changeSelectElement, List.get?_eq_some.mpr ⟨h, rfl⟩]
  rfl

/-- After `changeSelectItem s v` with some option value matching `v`, the
native value is `v`. -/
theorem changeSelectItem_val (s : NativeSelect) (v : String)
    (hmem : s.opts.any (fun o => o.value == v) = true) :
    (changeSelectItem s v).val = v := by
  have hmem' : ∃ o ∈ s.opts, o.value = v := by simpa using hmem
  simp [changeSelectItem, List.any_map, Function.comp]
  intro hall
  obtain ⟨o, ho, hv⟩ := hmem'
  exact ((hall o ho) hv).elim

/-- After `changeSelectItem s v`, an option is marked selected iff its
value equals `v`. -/
theorem changeSelectItem_selected (s : NativeSelect) (v : String) (j : Nat)
    (hj : j < (changeSelectItem s v).opts.length) :
    ((changeSelectItem s v).opts.get ⟨j, hj⟩).selected =
      (((changeSelectItem s v).opts.get ⟨j, hj⟩).value == v) := by
  simp only [changeSelectItem] at hj ⊢
  simp [List.get_eq_getElem, List.getElem_map]

/-! ### C1 -/

/-- C1: for every valid index `i` into the option list, resolving the
target option and committing its value (`changeSelectElement`, which ends
in `changeSelectItem`) leaves the native control's current value equal to
the option's `data-value`; the commit clears every previously-marked
native option, marks exactly those whose value matches the committed
value, and sets the native value to it. -/
theorem select_commits_value (w : Widget) (i : Nat) (h : i < w.items.length)
    (hmem : w.native.opts.any (fun o => o.value == (w.items.get ⟨i, h⟩).value) = true) :
    (changeSelectElement w i).native.val = (w.items.get ⟨i, h⟩).value ∧
    ∀ j (hj : j < (changeSelectElement w i).native.opts.length),
      ((changeSelectElement w i).native.opts.get ⟨j, hj⟩).selected =
        (((changeSelectElement w i).native.opts.get ⟨j, hj⟩).value ==
          (w.items.get ⟨i, h⟩).value) := by
  rw [changeSelectElement_eq w i h]
  exact ⟨changeSelectItem_val w.native _ hmem,
    fun j hj => changeSelectItem_selected w.native _ j hj⟩

/-- Witness for C1 at a concrete widget and index. -/
theorem select_commits_value_witness :
    (changeSelectElement sampleW 1).native.val = "b" :=
  (select_commits_value sampleW 1 (by decide) (by decide)).1

/-! ### C4 -/

/-- C4 counterexample: a non-disabled widget in the `Open` state stays
`Open` after a blur event — the code only removes the `focus` class and
never calls `closeCustomSelect` on blur. -/
theorem blur_not_closing_cex :
    sampleWExp.disabled = false ∧ sampleWExp.expanded = true ∧
    (handleKeyboardSelect sampleWExp .blurEv).1.expanded = true ∧
    (handleKeyboardSelect sampleWExp .blurEv).1.expandedCls = true :=
  ⟨rfl, rfl, rfl, rfl⟩

/-- C4 amended: for every non-disabled widget, a blur event removes the
`focus` class (marks `focused = false`) and changes nothing else — in
particular the expansion state machine is left as it was, not closed. -/
theorem blur_clears_focus_only (w : Widget) (hd : w.disabled = false) :
    (handleKeyboardSelect w .blurEv).1 = { w with focusCls := false } := by
  simp [handleKeyboardSelect, hd]

/-- Witness for the amended C4 at a concrete widget. -/
theorem blur_clears_focus_only_witness :
    (handleKeyboardSelect sampleWExp .blurEv).1 = { sampleWExp with focusCls := false } :=
  blur_clears_focus_only sampleWExp rfl

/-! ### C6 -/

theorem step_disabled (w : Widget) (e : Event) (h : w.disabled = true) :
    step w e = w := by
  cases e with
  | triggerEv => simp [step, triggerClick, h]
  | listClick t => simp [step, handleCustomListClick, h]
  | keyboard e => simp [step, handleKeyboardSelect, h]

/-- C6: once `disabled` is true, no subsequent routed event (trigger
click, list click / pointer select, keyboard navigation, focus, blur or
disable signal) changes any part of the widget state or the native
control: every event sequence leaves the widget exactly as it was. -/
theorem disabled_freezes (w : Widget) (h : w.disabled = true) (evs : List Event) :
    run w evs = w := by
  induction evs with
  | nil => rfl
  | cons e rest ih =>
    show run (step w e) rest = w
    rw [step_disabled w e h]
    exact ih

/-- Witness for C6 at a concrete disabled widget and event sequence. -/
theorem disabled_freezes_witness :
    run sampleDisabled
      [Event.triggerEv, Event.listClick (.buttonAt 1), Event.keyboard (.keyup 40),
       Event.keyboard .blurEv] = sampleDisabled :=
  disabled_freezes sampleDisabled rfl _

/-! ### C9 -/

/-- C9 counterexample: the trigger's click handler (`toggleCustomSelect`)
does not suppress the default platform action when the widget is enabled:
it neither calls `preventDefault` nor returns `false` on that path. -/
theorem trigger_click_not_suppressed_cex :
    sampleW.disabled = false ∧ (triggerClick sampleW).2 = false :=
  ⟨rfl, rfl⟩

/-- C9 amended: option-list clicks and all keyboard/focus/blur/disable
events suppress their default platform action (by `preventDefault` or by
the handler returning `false` when disabled); the trigger click suppresses
it only when the widget is disabled (the enabled toggle path returns
without preventing the default). -/
theorem default_suppression_amended (w : Widget) (t : ClickTarget) (e : KeyEventType) :
    (handleCustomListClick w t).2 = true ∧
    (handleKeyboardSelect w e).2 = true ∧
    (triggerClick w).2 = w.disabled := by
  refine ⟨?_, ?_, ?_⟩
  · by_cases h : w.disabled <;> cases t <;> simp [handleCustomListClick, h]
  · by_cases h : w.disabled <;> simp [handleKeyboardSelect, h]
  · by_cases h : w.disabled <;> simp [triggerClick, h]

/-! ### C2 -/

/-- C2: with the widget enabled, a pointer-driven select performed while
the option list is open (`handleCustomListClick` on a button) leaves the
expansion state machine Closed, and a keyboard-driven relative selection
(`handleKeyboardSelect` on keyup) leaves the expansion state exactly as it
was before the call. -/
theorem select_closes_relative_preserves (w : Widget) (i : Nat) (c : Nat)
    (hd : w.disabled = false) (he : w.expanded = true) :
    (handleCustomListClick w (.buttonAt i)).1.expanded = false ∧
    (handleKeyboardSelect w (.keyup c)).1.expanded = w.expanded := by
  constructor
  · have hcl : (handleCustomListClick w (.buttonAt i)).1 =
        changeSelectElement (toggleCustomSelect w) i := by
      simp [handleCustomListClick, hd]
    rw [hcl, (changeSelectElement_frame (toggleCustomSelect w) i).1]
    simp [toggleCustomSelect, hd, he, closeCustomSelect]
  · have hks : (handleKeyboardSelect w (.keyup c)).1 = handleKeyboardInput w c := by
      simp [handleKeyboardSelect, hd]
    rw [hks]
    exact (handleKeyboardInput_frame w c).1

/-- Witness for C2 at a concrete open widget. -/
theorem select_closes_relative_preserves_witness :
    (handleCustomListClick sampleWExp (.buttonAt 0)).1.expanded = false ∧
    (handleKeyboardSelect sampleWExp (.keyup 40)).1.expanded = sampleWExp.expanded :=
  select_closes_relative_preserves sampleWExp 0 40 rfl rfl

/-! ### C7 -/

/-- C7: keyboard relative selection never wraps: when the (first)
selected item is at index 0, Up/Left (keycodes 38/37) is a no-op leaving
the whole widget state identical, and when it is at the last index,
Down/Right (keycodes 40/39) is likewise a no-op. -/
theorem selectRelative_boundary_noop (w : Widget) (c : Nat) :
    (selectedLiIndex w.items = 0 → (c = 38 ∨ c = 37) → handleKeyboardInput w c = w) ∧
    (w.items ≠ [] → selectedLiIndex w.items = ((w.items.length - 1 : Nat) : Int) →
      (c = 40 ∨ c = 39) → handleKeyboardInput w c = w) := by
  constructor
  · intro hsel hc
    have hcode : (c == 38 || c == 37) = true := by
      rcases hc with h | h <;> simp [h]
    simp only [handleKeyboardInput, hsel, hcode, if_true]
    rcases Nat.eq_zero_or_pos w.items.length with hlen | hlen
    · have hj : jqEq w.items.length 0 = none := by
        simp [jqEq, hlen]
      simp [hj]
    · have hj : jqEq w.items.length 0 = some 0 := by
        simp [jqEq]
        exact List.length_pos.mp hlen
      simp [hj]
  · intro hne hsel hc
    have hlen : 0 < w.items.length := List.length_pos.mpr hne
    have hc38 : (c == 38 || c == 37) = false := by
      rcases hc with h | h <;> simp [h]
    have hc40 : (c == 40 || c == 39) = true := by
      rcases hc with h | h <;> simp [h]
    simp only [handleKeyboardInput, hsel, hc38, hc40, if_true, Bool.false_eq_true, if_false]
    have hj : jqEq w.items.length ((w.items.length - 1 : Nat) : Int) =
        some (w.items.length - 1) := by
      unfold jqEq
      rw [if_pos (Int.natCast_nonneg _),
        if_pos (by exact_mod_cast Nat.sub_lt hlen Nat.one_pos)]
      simp
    simp [hj, Nat.sub_add_cancel hlen]

/-- `sampleW` after selecting the last option. -/
def sampleWLast : Widget := changeSelectElement sampleW 2

/-- Witness for C7: Up at index 0 and Down at the last index are
identity on concrete widgets. -/
theorem selectRelative_boundary_noop_witness :
    handleKeyboardInput sampleW 38 = sampleW ∧
    handleKeyboardInput sampleWLast 40 = sampleWLast :=
  ⟨(selectRelative_boundary_noop sampleW 38).1 (by decide) (Or.inl rfl),
   (selectRelative_boundary_noop sampleWLast 40).2 (by decide) (by decide) (Or.inl rfl)⟩

/-! ### C10 -/

theorem step_expanded_inv (w : Widget) (e : Event)
    (h : w.expanded = w.expandedCls) :
    (step w e).expanded = (step w e).expandedCls := by
  cases e with
  | triggerEv =>
    cases hd : w.disabled with
    | true => simpa [step, triggerClick, hd] using h
    | false =>
      cases he : w.expanded <;>
        simp [step, triggerClick, toggleCustomSelect, hd, he,
          openCustomSelect, closeCustomSelect]
  | listClick t =>
    cases hd : w.disabled with
    | true => simpa [step, handleCustomListClick, hd] using h
    | false =>
      cases t with
      | nonButton => simpa [step, handleCustomListClick, hd] using h
      | buttonAt i =>
        have h1 := (changeSelectElement_frame (toggleCustomSelect w) i).1
        have h2 := (changeSelectElement_frame (toggleCustomSelect w) i).2.1
        have hcl : (handleCustomListClick w (.buttonAt i)).1 =
            changeSelectElement (toggleCustomSelect w) i := by
          simp [handleCustomListClick, hd]
        rw [step, hcl, h1, h2]
        cases he : w.expanded <;>
          simp [toggleCustomSelect, hd, he, openCustomSelect, closeCustomSelect]
  | keyboard ke =>
    cases hd : w.disabled with
    | true => simpa [step, handleKeyboardSelect, hd] using h
    | false =>
      cases ke with
      | keyup c =>
        have h1 := (handleKeyboardInput_frame w c).1
        have h2 := (handleKeyboardInput_frame w c).2.1
        have hks : (handleKeyboardSelect w (.keyup c)).1 = handleKeyboardInput w c := by
          simp [handleKeyboardSelect, hd]
        rw [step, hks, h1, h2]
        exact h
      | blurEv => simpa [step, handleKeyboardSelect, hd] using h
      | focusEv => simpa [step, handleKeyboardSelect, hd] using h
      | disableEv => simpa [step, handleKeyboardSelect, hd] using h
      | otherEv => simpa [step, handleKeyboardSelect, hd] using h

/-- C10: from construction onward, the `expanded` closure flag agrees
with the wrapper's `expanded` class after every sequence of routed
events: the flag and the rendered expansion visual never diverge. -/
theorem expanded_flag_matches_class (opts : List NativeOption) (d : Bool) (v : String)
    (evs : List Event) :
    (run (createCustomSelect opts d v) evs).expanded =
      (run (createCustomSelect opts d v) evs).expandedCls := by
  have key : ∀ (w : Widget), w.expanded = w.expandedCls →
      (run w evs).expanded = (run w evs).expandedCls := by
    induction evs with
    | nil => intro w h; exact h
    | cons e rest ih =>
      intro w h
      show (run (step w e) rest).expanded = (run (step w e) rest).expandedCls
      exact ih (step w e) (step_expanded_inv w e h)
  exact key _ rfl

/-! ### C8 -/

/-- C8 counterexample: pointer-driven select is not idempotent: clicking
the same option button twice in a row from the open state leaves the
widget expanded (each click toggles), while a single click leaves it
closed — the final states differ. -/
theorem pointer_select_not_idempotent_cex :
    (handleCustomListClick (handleCustomListClick sampleWExp (.buttonAt 0)).1
        (.buttonAt 0)).1 ≠
      (handleCustomListClick sampleWExp (.buttonAt 0)).1 := by
  decide

theorem changeSelectItem_idem (s : NativeSelect) (v : String) :
    changeSelectItem (changeSelectItem s v) v = changeSelectItem s v := by
  simp [changeSelectItem, List.map_map, Function.comp, List.any_map]

/-- C8 amended: the selection-commit itself (`changeSelectElement`, which
updates the rendered selection, the trigger label and the native control)
is idempotent — applying it twice at the same index equals applying it
once; but the full pointer click handler is not, because each click also
toggles the expansion state. -/
theorem changeSelectElement_idempotent (w : Widget) (i : Nat) :
    changeSelectElement (changeSelectElement w i) i = changeSelectElement w i := by
  by_cases h : i < w.items.length
  · rw [changeSelectElement_eq w i h]
    have hlen : i < ((deselectAll w.items).set i
        { w.items.get ⟨i, h⟩ with selectedCls := true }).length := by
      simp [deselectAll, h]
    rw [changeSelectElement_eq _ i hlen]
    have hgetset : (((deselectAll w.items).set i
        { w.items.get ⟨i, h⟩ with selectedCls := true })).get ⟨i, hlen⟩ =
        { w.items.get ⟨i, h⟩ with selectedCls := true } := by
      simp [List.get_eq_getElem, List.getElem_set_self]
    rw [hgetset]
    have hff : ((fun it : ListItem => { it with selectedCls := false }) ∘
        (fun it : ListItem => { it with selectedCls := false })) =
        (fun it : ListItem => { it with selectedCls := false }) := rfl
    simp [deselectAll, List.map_set, List.map_map, List.set_set, changeSelectItem_idem, hff]
  · have hnone : w.items.get? i = none := List.get?_eq_none.mpr (Nat.le_of_not_lt h)
    have hw : changeSelectElement w i = w := by
      rw [changeSelectElement, hnone]
    rw [hw, hw]

/-! ### C3 -/

/-- C3 counterexample: during `changeSelectElement` there is an
intermediate state (after the rendered selection and trigger label are
updated, before `changeSelectItem` runs) in which the rendered widget
already shows the new selection (item 1 marked, trigger label "B") while
the native control still holds the old value "a" — the native control IS
stale relative to the visible widget mid-operation. -/
theorem native_stale_mid_select_cex :
    ((changeSelectElementTrace sampleW 1).any (fun s =>
      (renderedSelection s == some 1) && (s.triggerText == "B") &&
        (s.native.val == "a"))) = true := by
  rfl

/-- C3 amended: the actual update order inside a select is rendered
selection marks, then trigger label, then native-control commit (the
native control lags the rendering mid-operation, per the counterexample);
at the end of the operation the three views agree: exactly the chosen
index is rendered selected, the trigger shows its label, and the native
value is its value. -/
theorem select_order_amended (w : Widget) (i : Nat) (h : i < w.items.length)
    (hmem : w.native.opts.any (fun o => o.value == (w.items.get ⟨i, h⟩).value) = true) :
    (changeSelectElementTrace w i).getLast? = some (changeSelectElement w i) ∧
    (∀ j (hj : j < (changeSelectElement w i).items.length),
      ((changeSelectElement w i).items.get ⟨j, hj⟩).selectedCls = (j == i)) ∧
    (changeSelectElement w i).triggerText = (w.items.get ⟨i, h⟩).label ∧
    (changeSelectElement w i).native.val = (w.items.get ⟨i, h⟩).value := by
  refine ⟨?_, ?_, ?_, ?_⟩
  · rw [changeSelectElementTrace, changeSelectElement, List.get?_eq_some.mpr ⟨h, rfl⟩]
    rfl
  · rw [changeSelectElement_eq w i h]
    intro j hj
    by_cases hji : j = i
    · subst hji
      simp [List.get_eq_getElem, List.getElem_set_self]
    · simp [List.get_eq_getElem, List.getElem_set_ne (Ne.symm hji), deselectAll, hji]
  · rw [changeSelectElement_eq w i h]
  · rw [changeSelectElement_eq w i h]
    exact changeSelectItem_val w.native _ hmem

/-- Witness for the amended C3 at a concrete widget and index. -/
theorem select_order_amended_witness :
    (changeSelectElementTrace sampleW 1).getLast? = some (changeSelectElement sampleW 1) ∧
    (changeSelectElement sampleW 1).triggerText = "B" ∧
    (changeSelectElement sampleW 1).native.val = "b" := by
  have hth := select_order_amended sampleW 1 (by decide) (by decide)
  exact ⟨hth.1, hth.2.2.1, hth.2.2.2⟩

/-! ### C5 -/

/-- C5 counterexample: construction does not establish the
"exactly one selected" invariant: with no input entry marked selected,
zero list items get the `selected` class (index 0 is NOT selected by
default), and with two entries marked, both keep it. -/
theorem construction_marks_cex :
    ((createCustomSelect [⟨"a", "A", false⟩, ⟨"b", "B", false⟩] false "").items.countP
        (fun it => it.selectedCls)) = 0 ∧
    ((createCustomSelect [⟨"a", "A", true⟩, ⟨"b", "B", true⟩] false "").items.countP
        (fun it => it.selectedCls)) = 2 := by
  constructor <;> rfl

theorem trigger_label_foldl (l : List NativeOption) (t : String) :
    l.foldl (fun a o => if o.selected then o.label else a) t =
      (((l.filter (fun o => o.selected)).getLast?).map (fun o => o.label)).getD t := by
  induction l generalizing t with
  | nil => rfl
  | cons o rest ih =>
    rw [List.foldl_cons, ih]
    cases h : o.selected with
    | true =>
      rw [List.filter_cons_of_pos (by simp [h]), if_pos rfl]
      cases hf : rest.filter (fun o => o.selected) with
      | nil => simp [hf]
      | cons x xs =>
        rw [List.getLast?_cons_cons]
        cases hl : (x :: xs).getLast? with
        | none =>
          have hs := List.getLast?_isSome (l := x :: xs)
          simp [hl] at hs
        | some y => simp [hl]
    | false =>
      rw [List.filter_cons_of_neg (by simp [h]), if_neg (by simp)]

/-- C5 amended: construction preserves input order and copies each
entry's selected mark verbatim into the list item (several marked entries
all stay marked; none marked leaves none marked, with no index-0
default); only the trigger label follows last-write-wins: it is the label
of the last entry marked selected (empty when none is). -/
theorem construction_copies_marks (opts : List NativeOption) (d : Bool) (v : String) :
    (createCustomSelect opts d v).items.length = opts.length ∧
    (∀ j (hj : j < opts.length),
      (createCustomSelect opts d v).items.get? j =
        some { value := (opts.get ⟨j, hj⟩).value, label := (opts.get ⟨j, hj⟩).label,
               selectedCls := (opts.get ⟨j, hj⟩).selected }) ∧
    (createCustomSelect opts d v).triggerText =
      (((opts.filter (fun o => o.selected)).getLast?).map (fun o => o.label)).getD "" := by
  refine ⟨by simp [createCustomSelect], ?_, trigger_label_foldl opts ""⟩
  intro j hj
  have hj' : opts[j]? = some (opts.get ⟨j, hj⟩) := List.getElem?_eq_some_iff.mpr ⟨hj, rfl⟩
  simp [createCustomSelect, List.get?_eq_getElem?, List.getElem?_map, hj']

/-- Witness for the amended C5 at a concrete input with two marked
entries. -/
theorem construction_copies_marks_witness :
    (createCustomSelect [⟨"a", "A", true⟩, ⟨"b", "B", true⟩] false "a").items.get? 1 =
      some ⟨"b", "B", true⟩ :=
  (construction_copies_marks [⟨"a", "A", true⟩, ⟨"b", "B", true⟩] false "a").2.1 1
    (by decide)

end CustomSelect
